import Mathlib

/-!
Shallow embedding of the Turkish license-plate scoring engine of
`scoring.js`: `parseTurkishPlate`, `detectPlateType`, `calculatePlateScore`
and their constant tables.  Plate text is modelled as `List Char`; all
score components are rational numbers.  Uppercasing is modelled on the
ASCII letters, the only range the engine's character classes distinguish.
-/

namespace PlateBot

/-- Characters matched by the regex class `\d`: the ASCII decimal digits. -/
def isDigitChar (c : Char) : Bool := 48 ≤ c.toNat && c.toNat ≤ 57

/-- Characters matched by the regex class `[A-Z]`: the ASCII uppercase letters. -/
def isUpperChar (c : Char) : Bool := 65 ≤ c.toNat && c.toNat ≤ 90

/-- Code points matched by the regex class `\s` (ECMAScript whitespace). -/
def jsWhitespace : List Nat :=
  [9, 10, 11, 12, 13, 32, 160, 5760, 8192, 8193, 8194, 8195, 8196, 8197, 8198,
   8199, 8200, 8201, 8202, 8232, 8233, 8239, 8287, 12288, 65279]

/-- One character of `replace(/[\s-]/g, "")`: is the character kept? -/
def keepChar (c : Char) : Bool := !(jsWhitespace.contains c.toNat || c == '-')

/-- The normalization `plateText.replace(/[\s-]/g, "").toUpperCase()`:
separators are removed, then letters are uppercased. -/
def normalize (cs : List Char) : List Char := (cs.filter keepChar).map Char.toUpper

/-- `padStart(2, "0")` applied to the matched province digit run. -/
def padStart2 (l : List Char) : List Char :=
  if l.length < 2 then List.replicate (2 - l.length) '0' ++ l else l

/-- The `{ provinceCode, letters, digits }` record returned by `parseTurkishPlate`. -/
structure ParsedPlate where
  provinceCode : List Char
  letters : List Char
  digits : List Char
deriving DecidableEq

/-- `parseTurkishPlate` from `scoring.js`: normalize, match `^(\d{1,2})` for the
province code (zero-padded with `padStart(2, "0")`, empty when there is no
match), then cut the remainder with `substring(provinceCode.length)` — the
length of the *padded* code — match `^([A-Z]+)` for the letters, cut again,
and match `^(\d+)` for the digits. -/
def parseTurkishPlate (cs : List Char) : ParsedPlate :=
  let t := normalize cs
  let pm := (t.takeWhile isDigitChar).take 2
  let provinceCode := if pm = [] then [] else padStart2 pm
  let rem1 := t.drop provinceCode.length
  let letters := rem1.takeWhile isUpperChar
  let rem2 := rem1.drop letters.length
  let digits := rem2.takeWhile isDigitChar
  ⟨provinceCode, letters, digits⟩

/-- The nine plate-type categories. -/
inductive PlateType where
  | STANDARD
  | UNIVERSITY
  | POLICE
  | GENDARMERIE
  | COAST_GUARD
  | DIPLOMATIC
  | CONSULATE
  | FOREIGN
  | TAXI
deriving DecidableEq

/-- JavaScript string `<=`: code-point lexicographic order. -/
def jsLe : List Char → List Char → Bool
  | [], _ => true
  | _ :: _, [] => false
  | a :: as, b :: bs =>
    if a.toNat < b.toNat then true
    else if b.toNat < a.toNat then false
    else jsLe as bs

/-- `detectPlateType` from `scoring.js`: the if/else chain over the letter block. -/
def detectPlateType (letters : List Char) : PlateType :=
  if letters = "AA".toList then .UNIVERSITY
  else if letters = "A".toList ∨ letters = "AAA".toList then .POLICE
  else if letters = "JAA".toList then .GENDARMERIE
  else if letters = "SGH".toList then .COAST_GUARD
  else if letters = "CD".toList then .DIPLOMATIC
  else if letters = "CC".toList then .CONSULATE
  else if letters.length = 2 ∧ jsLe ("MA".toList) letters ∧ jsLe letters ("MZ".toList) then .FOREIGN
  else if letters.length = 3 ∧ jsLe ("TAA".toList) letters ∧ jsLe letters ("TKZ".toList) then .TAXI
  else .STANDARD

/-- `new Set(letters.split("")).size === 1`: the list is non-empty and all its
characters are equal. -/
def allSameChars : List Char → Bool
  | [] => false
  | c :: cs => cs.all (fun d => d = c)

/-- The `sequentialPatterns` table of `isSequential`. -/
def sequentialPatterns : List (List Char) :=
  ["ABC".toList, "BCD".toList, "CDE".toList, "DEF".toList, "EFG".toList,
   "FGH".toList, "GHI".toList, "HIJ".toList, "IJK".toList, "JKL".toList,
   "KLM".toList, "LMN".toList, "MNO".toList, "NOP".toList, "OPR".toList,
   "PRS".toList, "RST".toList, "STU".toList, "TUV".toList, "UVY".toList,
   "VYZ".toList]

/-- JavaScript `hay.includes(pat)`: `pat` occurs in the haystack as a
contiguous run. -/
def jsIncludes (pat : List Char) : List Char → Bool
  | [] => pat.isEmpty
  | c :: rest => pat.isPrefixOf (c :: rest) || jsIncludes pat rest

/-- `isSequential` from `scoring.js`: some pattern occurs in `letters` as a
contiguous substring (`String.includes`). -/
def isSequential (letters : List Char) : Bool :=
  sequentialPatterns.any (fun p => jsIncludes p letters)

/-- The letter-pattern base score of `calculatePlateScore` (the value of
`letterScore` before `letterSum` is added): initialized to 1, adjusted only
for STANDARD plates with letters, first by the identical/sequential branch,
then re-checked for length ≥ 3 identical letters, which overrides to 7.5. -/
def letterBaseScore (t : PlateType) (letters : List Char) : ℚ :=
  if t = .STANDARD ∧ letters ≠ [] then
    if 2 ≤ letters.length then
      let s1 : ℚ :=
        if allSameChars letters then (if 3 ≤ letters.length then 20 else 10)
        else if isSequential letters then 5
        else 1
      if 3 ≤ letters.length ∧ allSameChars letters then 7.5 else s1
    else 1
  else 1

/-- The `letterSum` loop of `calculatePlateScore`: a running product, starting
at 1, of `charCodeAt(i) - 64` for each character whose position lies in 1..26. -/
def letterProduct : List Char → ℕ
  | [] => 1
  | c :: cs =>
    let p := c.toNat - 64
    (if 1 ≤ p ∧ p ≤ 26 then p else 1) * letterProduct cs

/-- JavaScript `x || d` on an optional number: `NaN` (`none`) and the falsy
value 0 both fall back to the default. -/
def jsOrNat : Option ℕ → ℕ → ℕ
  | some v, d => if v = 0 then d else v
  | none, d => d

/-- `parseInt` applied to a single character: its value for a decimal digit,
`NaN` (`none`) otherwise. -/
def parseIntChar (c : Char) : Option ℕ :=
  if isDigitChar c then some (c.toNat - 48) else none

/-- The `digitSum` loop of `calculatePlateScore`: each character contributes
`parseInt(digitString[i]) || 1`. -/
def digitSumN : List Char → ℕ
  | [] => 0
  | c :: cs => jsOrNat (parseIntChar c) 1 + digitSumN cs

/-- Decimal value of a digit run. -/
def decimalValue (l : List Char) : ℕ :=
  l.foldl (fun acc c => 10 * acc + (c.toNat - 48)) 0

/-- `parseInt` on the digit block: value of the leading digit run, `NaN`
(`none`) when there is none. -/
def parseIntNat (l : List Char) : Option ℕ :=
  let r := l.takeWhile isDigitChar
  if r = [] then none else some (decimalValue r)

/-- The digit-count tier of `calculatePlateScore`. -/
def digitTier (n : ℕ) : ℚ :=
  if n ≤ 9 then 10
  else if n ≤ 99 then 5
  else if n ≤ 999 then 2.5
  else 1

/-- JavaScript `x || d` on an optional rational: a missing key and the falsy
value 0 both fall back to the default. -/
def jsOrRat : Option ℚ → ℚ → ℚ
  | some v, d => if v = 0 then d else v
  | none, d => d

/-- The `provinceTiers` table of `scoring.js` (without its `default` entry,
which the lookup models as the fallback). -/
def provinceTiersList : List (List Char × ℚ) :=
  [("01".toList, 1.5), ("06".toList, 1.5), ("07".toList, 1.5), ("16".toList, 1.5),
   ("34".toList, 1.5), ("35".toList, 1.5),
   ("02".toList, 2.5), ("04".toList, 2.5), ("09".toList, 2.5), ("10".toList, 2.5),
   ("11".toList, 2.5), ("20".toList, 2.5), ("21".toList, 2.5), ("25".toList, 2.5),
   ("26".toList, 2.5), ("27".toList, 2.5), ("31".toList, 2.5), ("38".toList, 2.5),
   ("41".toList, 2.5), ("42".toList, 2.5), ("43".toList, 2.5), ("44".toList, 2.5),
   ("45".toList, 2.5), ("46".toList, 2.5), ("47".toList, 2.5), ("48".toList, 2.5),
   ("54".toList, 2.5), ("55".toList, 2.5), ("59".toList, 2.5), ("61".toList, 2.5),
   ("03".toList, 5), ("05".toList, 5), ("08".toList, 5), ("12".toList, 5),
   ("13".toList, 5), ("14".toList, 5), ("15".toList, 5), ("17".toList, 5),
   ("18".toList, 5), ("19".toList, 5), ("22".toList, 5), ("23".toList, 5),
   ("24".toList, 5), ("28".toList, 5), ("29".toList, 5), ("30".toList, 5),
   ("32".toList, 5), ("36".toList, 5), ("37".toList, 5), ("39".toList, 5),
   ("40".toList, 5), ("49".toList, 5), ("50".toList, 5), ("51".toList, 5),
   ("52".toList, 5), ("53".toList, 5), ("56".toList, 5), ("57".toList, 5),
   ("58".toList, 5), ("60".toList, 5), ("62".toList, 5), ("63".toList, 5),
   ("64".toList, 5), ("65".toList, 5), ("66".toList, 5), ("67".toList, 5),
   ("68".toList, 5), ("69".toList, 5), ("70".toList, 5), ("71".toList, 5),
   ("72".toList, 5), ("73".toList, 5), ("74".toList, 5), ("77".toList, 5),
   ("78".toList, 5), ("79".toList, 5), ("80".toList, 5),
   ("33".toList, 10), ("75".toList, 10), ("76".toList, 10), ("81".toList, 10)]

/-- First-match association-list lookup, modelling `provinceTiers[code]`. -/
def lookupTier : List (List Char × ℚ) → List Char → Option ℚ
  | [], _ => none
  | (k, v) :: rest, c => if k = c then some v else lookupTier rest c

/-- The `specialPlateTypes` table: every plate type is a key, so the lookup is
a total function (the `|| 1` fallback of the code is unreachable). -/
def specialPlateTypes : PlateType → ℚ
  | .STANDARD => 1
  | .UNIVERSITY => 15
  | .POLICE => 20
  | .GENDARMERIE => 25
  | .COAST_GUARD => 25
  | .DIPLOMATIC => 30
  | .CONSULATE => 25
  | .FOREIGN => 20
  | .TAXI => 15

/-- The `breakdown` record of a score result. -/
structure ScoreBreakdown where
  province : ℚ
  letters : ℚ
  digits : ℚ
  digitsum : ℚ
  special : ℚ
deriving DecidableEq

/-- The record returned by `calculatePlateScore`. -/
structure ScoreResult where
  totalScore : ℚ
  plateType : PlateType
  breakdown : ScoreBreakdown
  parsed : ParsedPlate
deriving DecidableEq

/-- `calculatePlateScore` from `scoring.js`. -/
def calculatePlateScore (cs : List Char) : ScoreResult :=
  let parsed := parseTurkishPlate cs
  let plateType := detectPlateType parsed.letters
  let provinceScore := jsOrRat (lookupTier provinceTiersList parsed.provinceCode) 1
  let letterScore := letterBaseScore plateType parsed.letters + (letterProduct parsed.letters : ℚ)
  let numDigits := jsOrNat (parseIntNat parsed.digits) 1
  let digitSum : ℚ := (digitSumN parsed.digits : ℚ)
  let digitScore := digitTier numDigits
  let specialScore := specialPlateTypes plateType
  let totalScore := (letterScore + digitSum) * digitScore * provinceScore * specialScore
  ⟨totalScore, plateType,
   ⟨provinceScore, letterScore, digitScore, digitSum, specialScore⟩, parsed⟩

/-- The digit-sum formula as claim C1 words it: each decimal digit character
contributes its own value and each unparsable character contributes 1. -/
def digitSumClaimed : List Char → ℕ
  | [] => 0
  | c :: cs => (if isDigitChar c then c.toNat - 48 else 1) + digitSumClaimed cs

/-- The digit-sum formula as the code actually behaves: each decimal digit
contributes `max 1` of its value — the digit 0, like an unparsable
character, contributes 1 — because `parseInt(ch) || 1` treats 0 as falsy. -/
def digitSumAmended : List Char → ℕ
  | [] => 0
  | c :: cs => (if isDigitChar c then max 1 (c.toNat - 48) else 1) + digitSumAmended cs

/-- The nine-rule priority classifier exactly as the spec lists it (§4.2),
first match wins: AA, A or AAA, JAA, SGH, CD, CC, the two-letter MA–MZ
code-point range, the three-letter TAA–TKZ code-point range, otherwise
STANDARD. -/
def classifySpec (letters : List Char) : PlateType :=
  if letters = "AA".toList then .UNIVERSITY
  else if letters = "A".toList ∨ letters = "AAA".toList then .POLICE
  else if letters = "JAA".toList then .GENDARMERIE
  else if letters = "SGH".toList then .COAST_GUARD
  else if letters = "CD".toList then .DIPLOMATIC
  else if letters = "CC".toList then .CONSULATE
  else if letters.length = 2 ∧ jsLe ("MA".toList) letters ∧ jsLe letters ("MZ".toList) then .FOREIGN
  else if letters.length = 3 ∧ jsLe ("TAA".toList) letters ∧ jsLe letters ("TKZ".toList) then .TAXI
  else .STANDARD

/-- The canonical plate shape `\d{1,2}[A-Z]{1,3}\d{1,4}`: 1–2 digits, then
1–3 uppercase letters, then 1–4 digits. -/
def canonicalShape (n : List Char) : Prop :=
  ∃ p l d, n = p ++ (l ++ d) ∧
    1 ≤ p.length ∧ p.length ≤ 2 ∧ (∀ c ∈ p, isDigitChar c = true) ∧
    1 ≤ l.length ∧ l.length ≤ 3 ∧ (∀ c ∈ l, isUpperChar c = true) ∧
    1 ≤ d.length ∧ d.length ≤ 4 ∧ (∀ c ∈ d, isDigitChar c = true)

/-- The canonical shape restricted to a full 2-digit province code. -/
def twoDigitShape (n : List Char) : Prop :=
  ∃ p l d, n = p ++ (l ++ d) ∧
    p.length = 2 ∧ (∀ c ∈ p, isDigitChar c = true) ∧
    1 ≤ l.length ∧ l.length ≤ 3 ∧ (∀ c ∈ l, isUpperChar c = true) ∧
    1 ≤ d.length ∧ d.length ≤ 4 ∧ (∀ c ∈ d, isDigitChar c = true)

/-! ## Helper lemmas -/

theorem upper_not_digit {c : Char} (h : isUpperChar c = true) : isDigitChar c = false := by
  simp only [isUpperChar, Bool.and_eq_true, decide_eq_true_eq] at h
  simp only [isDigitChar, Bool.and_eq_false_iff, decide_eq_false_iff_not]
  omega

theorem digit_not_upper {c : Char} (h : isDigitChar c = true) : isUpperChar c = false := by
  simp only [isDigitChar, Bool.and_eq_true, decide_eq_true_eq] at h
  simp only [isUpperChar, Bool.and_eq_false_iff, decide_eq_false_iff_not]
  omega

theorem takeWhile_append_all {α : Type} {f : α → Bool} {p r : List α}
    (h : ∀ c ∈ p, f c = true) : (p ++ r).takeWhile f = p ++ r.takeWhile f := by
  induction p with
  | nil => simp
  | cons a t ih =>
    simp only [List.cons_append]
    rw [List.takeWhile_cons_of_pos (h a (by simp)), ih (fun c hc => h c (by simp [hc]))]

theorem takeWhile_all {α : Type} {f : α → Bool} {l : List α} (h : ∀ c ∈ l, f c = true) :
    l.takeWhile f = l := by
  induction l with
  | nil => rfl
  | cons a t ih =>
    rw [List.takeWhile_cons_of_pos (h a (by simp)), ih (fun c hc => h c (by simp [hc]))]

theorem drop_length_append {α : Type} (p r : List α) : (p ++ r).drop p.length = r := by
  induction p with
  | nil => rfl
  | cons a t ih => simp [ih]

theorem forall_snd_provinceTiers :
    ∀ e ∈ provinceTiersList, e.2 = 1.5 ∨ e.2 = 2.5 ∨ e.2 = 5 ∨ e.2 = 10 := by
  simp only [provinceTiersList, List.forall_mem_cons, List.not_mem_nil, false_implies,
    forall_const, and_true]
  norm_num

theorem take_two_ne_nil {l : List Char} (h : l ≠ []) : l.take 2 ≠ [] := by
  cases l with
  | nil => exact absurd rfl h
  | cons a t => simp

theorem padStart2_length {l : List Char} (h : l.length ≤ 2) : (padStart2 l).length = 2 := by
  unfold padStart2
  split_ifs with h1
  · simp only [List.length_append, List.length_replicate]
    omega
  · omega

theorem lookupTier_mem (l : List (List Char × ℚ)) (c : List Char) (v : ℚ)
    (h : lookupTier l c = some v) : ∃ e ∈ l, e.2 = v := by
  induction l with
  | nil => simp [lookupTier] at h
  | cons e rest ih =>
    obtain ⟨k, w⟩ := e
    simp only [lookupTier] at h
    by_cases hk : k = c
    · rw [if_pos hk] at h
      simp only [Option.some.injEq] at h
      exact ⟨(k, w), by simp, h⟩
    · rw [if_neg hk] at h
      obtain ⟨e, he, hv⟩ := ih h
      exact ⟨e, by simp [he], hv⟩

theorem provinceTiers_values (c : List Char) (v : ℚ)
    (h : lookupTier provinceTiersList c = some v) :
    v = 1.5 ∨ v = 2.5 ∨ v = 5 ∨ v = 10 := by
  obtain ⟨e, he, hv⟩ := lookupTier_mem _ _ _ h
  rw [← hv]
  exact forall_snd_provinceTiers e he

theorem one_le_letterBaseScore (t : PlateType) (l : List Char) : 1 ≤ letterBaseScore t l := by
  unfold letterBaseScore
  split_ifs <;> norm_num

theorem one_le_letterProduct (l : List Char) : 1 ≤ letterProduct l := by
  induction l with
  | nil => simp [letterProduct]
  | cons c cs ih =>
    unfold letterProduct
    have h1 : 1 ≤ (if 1 ≤ c.toNat - 64 ∧ c.toNat - 64 ≤ 26 then c.toNat - 64 else 1) := by
      split_ifs with h
      · exact h.1
      · exact le_refl 1
    calc 1 = 1 * 1 := (one_mul 1).symm
    _ ≤ _ := Nat.mul_le_mul h1 ih

theorem digitTier_pos (n : ℕ) : 0 < digitTier n := by
  unfold digitTier
  split_ifs <;> norm_num

theorem specialPlateTypes_pos (t : PlateType) : 0 < specialPlateTypes t := by
  cases t <;> norm_num [specialPlateTypes]

theorem provinceScore_pos (c : List Char) :
    0 < jsOrRat (lookupTier provinceTiersList c) 1 := by
  cases h : lookupTier provinceTiersList c with
  | none => norm_num [jsOrRat]
  | some v =>
    simp only [jsOrRat]
    split_ifs with h0
    · norm_num
    · rcases provinceTiers_values c v h with hv | hv | hv | hv <;> rw [hv] <;> norm_num

theorem totalScore_pos (cs : List Char) : 0 < (calculatePlateScore cs).totalScore := by
  have hrfl : (calculatePlateScore cs).totalScore =
      (letterBaseScore (detectPlateType ((parseTurkishPlate cs).letters)) ((parseTurkishPlate cs).letters)
          + ((letterProduct ((parseTurkishPlate cs).letters) : ℕ) : ℚ)
          + ((digitSumN ((parseTurkishPlate cs).digits) : ℕ) : ℚ))
        * digitTier (jsOrNat (parseIntNat ((parseTurkishPlate cs).digits)) 1)
        * jsOrRat (lookupTier provinceTiersList ((parseTurkishPlate cs).provinceCode)) 1
        * specialPlateTypes (detectPlateType ((parseTurkishPlate cs).letters)) := rfl
  rw [hrfl]
  have hb := one_le_letterBaseScore (detectPlateType ((parseTurkishPlate cs).letters))
    ((parseTurkishPlate cs).letters)
  have hp : (1 : ℚ) ≤ ((letterProduct ((parseTurkishPlate cs).letters) : ℕ) : ℚ) := by
    exact_mod_cast one_le_letterProduct ((parseTurkishPlate cs).letters)
  have hd : (0 : ℚ) ≤ ((digitSumN ((parseTurkishPlate cs).digits) : ℕ) : ℚ) := by positivity
  have hsum : (0 : ℚ) <
      letterBaseScore (detectPlateType ((parseTurkishPlate cs).letters)) ((parseTurkishPlate cs).letters)
        + ((letterProduct ((parseTurkishPlate cs).letters) : ℕ) : ℚ)
        + ((digitSumN ((parseTurkishPlate cs).digits) : ℕ) : ℚ) := by linarith
  exact mul_pos (mul_pos (mul_pos hsum (digitTier_pos _)) (provinceScore_pos _))
    (specialPlateTypes_pos _)

theorem parse_of_shape (cs p l d : List Char) (hn : normalize cs = p ++ (l ++ d))
    (hp2 : p.length = 2) (hpd : ∀ c ∈ p, isDigitChar c = true)
    (hl0 : l ≠ []) (hlu : ∀ c ∈ l, isUpperChar c = true)
    (hd0 : d ≠ []) (hdd : ∀ c ∈ d, isDigitChar c = true) :
    parseTurkishPlate cs = ⟨p, l, d⟩ := by
  have hrun : (p ++ (l ++ d)).takeWhile isDigitChar = p := by
    rw [takeWhile_append_all hpd]
    cases l with
    | nil => exact absurd rfl hl0
    | cons a t =>
      have ha : isDigitChar a = false := upper_not_digit (hlu a (by simp))
      rw [List.cons_append, List.takeWhile_cons_of_neg (by simp [ha]), List.append_nil]
  have hpm : ((p ++ (l ++ d)).takeWhile isDigitChar).take 2 = p := by
    rw [hrun, ← hp2, List.take_length]
  have hpne : p ≠ [] := by
    intro hh
    rw [hh] at hp2
    simp at hp2
  have hpad : padStart2 p = p := by
    unfold padStart2
    rw [if_neg (by omega)]
  have hlet : ((p ++ (l ++ d)).drop p.length).takeWhile isUpperChar = l := by
    rw [drop_length_append p (l ++ d), takeWhile_append_all hlu]
    cases d with
    | nil => exact absurd rfl hd0
    | cons a t =>
      have ha : isUpperChar a = false := digit_not_upper (hdd a (by simp))
      rw [List.takeWhile_cons_of_neg (by simp [ha]), List.append_nil]
  have hdig : (((p ++ (l ++ d)).drop p.length).drop l.length).takeWhile isDigitChar = d := by
    rw [drop_length_append p (l ++ d), drop_length_append l d, takeWhile_all hdd]
  simp only [parseTurkishPlate, hn, hpm, if_neg hpne, hpad, hlet, hdig]

theorem breakdown_province_eq (cs : List Char) :
    (calculatePlateScore cs).breakdown.province =
      jsOrRat (lookupTier provinceTiersList ((parseTurkishPlate cs).provinceCode)) 1 := rfl

theorem breakdown_letters_eq (cs : List Char) :
    (calculatePlateScore cs).breakdown.letters =
      letterBaseScore (detectPlateType ((parseTurkishPlate cs).letters))
          ((parseTurkishPlate cs).letters)
        + ((letterProduct ((parseTurkishPlate cs).letters) : ℕ) : ℚ) := rfl

theorem breakdown_digits_eq (cs : List Char) :
    (calculatePlateScore cs).breakdown.digits =
      digitTier (jsOrNat (parseIntNat ((parseTurkishPlate cs).digits)) 1) := rfl

theorem breakdown_digitsum_eq (cs : List Char) :
    (calculatePlateScore cs).breakdown.digitsum =
      ((digitSumN ((parseTurkishPlate cs).digits) : ℕ) : ℚ) := rfl

theorem breakdown_special_eq (cs : List Char) :
    (calculatePlateScore cs).breakdown.special =
      specialPlateTypes (detectPlateType ((parseTurkishPlate cs).letters)) := rfl

theorem totalScore_eq (cs : List Char) :
    (calculatePlateScore cs).totalScore =
      ((calculatePlateScore cs).breakdown.letters + (calculatePlateScore cs).breakdown.digitsum)
        * (calculatePlateScore cs).breakdown.digits
        * (calculatePlateScore cs).breakdown.province
        * (calculatePlateScore cs).breakdown.special := rfl

theorem digitSumN_eq_amended (l : List Char) : digitSumN l = digitSumAmended l := by
  induction l with
  | nil => rfl
  | cons c cs ih =>
    unfold digitSumN digitSumAmended
    rw [ih]
    congr 1
    by_cases h : isDigitChar c
    · simp only [parseIntChar, if_pos h, jsOrNat]
      split_ifs with h0 <;> omega
    · simp [parseIntChar, h, jsOrNat]

theorem score_06AA01_digitsum :
    (calculatePlateScore ("06AA01".toList)).breakdown.digitsum = 2 := by
  have hp : parseTurkishPlate ("06AA01".toList) =
      ⟨['0', '6'], ['A', 'A'], ['0', '1']⟩ := by decide
  have hs : digitSumN ['0', '1'] = 2 := by decide
  rw [breakdown_digitsum_eq, hp]
  norm_num [hs]

theorem score_06AA01_total :
    (calculatePlateScore ("06AA01".toList)).totalScore = 900 := by
  have hp : parseTurkishPlate ("06AA01".toList) =
      ⟨['0', '6'], ['A', 'A'], ['0', '1']⟩ := by decide
  have ht : detectPlateType ['A', 'A'] = PlateType.UNIVERSITY := by decide
  have hb : letterBaseScore PlateType.UNIVERSITY ['A', 'A'] = 1 := rfl
  have hq : letterProduct ['A', 'A'] = 1 := by decide
  have hs : digitSumN ['0', '1'] = 2 := by decide
  have hn : jsOrNat (parseIntNat ['0', '1']) 1 = 1 := by decide
  have hl : lookupTier provinceTiersList ['0', '6'] = some 1.5 := rfl
  rw [totalScore_eq, breakdown_letters_eq, breakdown_digitsum_eq, breakdown_digits_eq,
    breakdown_province_eq, breakdown_special_eq, hp]
  norm_num [ht, hb, hq, hs, hn, hl, jsOrRat, digitTier, specialPlateTypes]

/-! ## Claims -/

/-- Claim C10: for every input string the returned record is internally
consistent: `totalScore` is `(letters + digitsum) × digits × province ×
special` over the breakdown fields, `parsed` is `parseTurkishPlate` of the
same input, and `plateType` is `detectPlateType` of the parsed letters. -/
theorem claim_C10_internal_consistency (cs : List Char) :
    (calculatePlateScore cs).totalScore =
      ((calculatePlateScore cs).breakdown.letters + (calculatePlateScore cs).breakdown.digitsum)
        * (calculatePlateScore cs).breakdown.digits
        * (calculatePlateScore cs).breakdown.province
        * (calculatePlateScore cs).breakdown.special ∧
    (calculatePlateScore cs).parsed = parseTurkishPlate cs ∧
    (calculatePlateScore cs).plateType = detectPlateType ((parseTurkishPlate cs).letters) :=
  ⟨rfl, rfl, rfl⟩

/-- Claim C9: the two concrete STANDARD scenarios. `score("34AB123")` has
total (3+6)×2.5×1.5×1 = 33.75 with letter score 3, tier 2.5, digitsum 6,
province 1.5, special 1; `score("81BB1")` has total (14+1)×10×10×1 = 1500
with letter score 14, tier 10, digitsum 1, province 10, special 1. -/
theorem claim_C9_standard_scenarios :
    ((calculatePlateScore ("34AB123".toList)).totalScore = 33.75 ∧
      (calculatePlateScore ("34AB123".toList)).breakdown.letters = 3 ∧
      (calculatePlateScore ("34AB123".toList)).breakdown.digits = 2.5 ∧
      (calculatePlateScore ("34AB123".toList)).breakdown.digitsum = 6 ∧
      (calculatePlateScore ("34AB123".toList)).breakdown.province = 1.5 ∧
      (calculatePlateScore ("34AB123".toList)).breakdown.special = 1) ∧
    ((calculatePlateScore ("81BB1".toList)).totalScore = 1500 ∧
      (calculatePlateScore ("81BB1".toList)).breakdown.letters = 14 ∧
      (calculatePlateScore ("81BB1".toList)).breakdown.digits = 10 ∧
      (calculatePlateScore ("81BB1".toList)).breakdown.digitsum = 1 ∧
      (calculatePlateScore ("81BB1".toList)).breakdown.province = 10 ∧
      (calculatePlateScore ("81BB1".toList)).breakdown.special = 1) := by
  have hp1 : parseTurkishPlate ("34AB123".toList) =
      ⟨['3', '4'], ['A', 'B'], ['1', '2', '3']⟩ := by decide
  have ht1 : detectPlateType ['A', 'B'] = PlateType.STANDARD := by decide
  have hb1 : letterBaseScore PlateType.STANDARD ['A', 'B'] = 1 := rfl
  have hq1 : letterProduct ['A', 'B'] = 2 := by decide
  have hs1 : digitSumN ['1', '2', '3'] = 6 := by decide
  have hn1 : jsOrNat (parseIntNat ['1', '2', '3']) 1 = 123 := by decide
  have hl1 : lookupTier provinceTiersList ['3', '4'] = some 1.5 := rfl
  have hp2 : parseTurkishPlate ("81BB1".toList) =
      ⟨['8', '1'], ['B', 'B'], ['1']⟩ := by decide
  have ht2 : detectPlateType ['B', 'B'] = PlateType.STANDARD := by decide
  have hb2 : letterBaseScore PlateType.STANDARD ['B', 'B'] = 10 := rfl
  have hq2 : letterProduct ['B', 'B'] = 4 := by decide
  have hs2 : digitSumN ['1'] = 1 := by decide
  have hn2 : jsOrNat (parseIntNat ['1']) 1 = 1 := by decide
  have hl2 : lookupTier provinceTiersList ['8', '1'] = some 10 := rfl
  refine ⟨⟨?_, ?_, ?_, ?_, ?_, ?_⟩, ?_, ?_, ?_, ?_, ?_, ?_⟩ <;>
    first
    | (rw [totalScore_eq, breakdown_letters_eq, breakdown_digitsum_eq, breakdown_digits_eq,
          breakdown_province_eq, breakdown_special_eq, hp1]
       norm_num [ht1, hb1, hq1, hs1, hn1, hl1, jsOrRat, digitTier, specialPlateTypes])
    | (rw [totalScore_eq, breakdown_letters_eq, breakdown_digitsum_eq, breakdown_digits_eq,
          breakdown_province_eq, breakdown_special_eq, hp2]
       norm_num [ht2, hb2, hq2, hs2, hn2, hl2, jsOrRat, digitTier, specialPlateTypes])
    | (rw [breakdown_letters_eq, hp1]; norm_num [ht1, hb1, hq1])
    | (rw [breakdown_digits_eq, hp1]; norm_num [hn1, digitTier])
    | (rw [breakdown_digitsum_eq, hp1]; norm_num [hs1])
    | (rw [breakdown_province_eq, hp1]; norm_num [hl1, jsOrRat])
    | (rw [breakdown_special_eq, hp1]; norm_num [ht1, specialPlateTypes])
    | (rw [breakdown_letters_eq, hp2]; norm_num [ht2, hb2, hq2])
    | (rw [breakdown_digits_eq, hp2]; norm_num [hn2, digitTier])
    | (rw [breakdown_digitsum_eq, hp2]; norm_num [hs2])
    | (rw [breakdown_province_eq, hp2]; norm_num [hl2, jsOrRat])
    | (rw [breakdown_special_eq, hp2]; norm_num [ht2, specialPlateTypes])

/-- Claim C1 counterexample: for "06AA01" the returned digitsum is not the
plain sum of the digit characters of the digit block (the digit 0 contributes
1, because `parseInt("0") || 1` falls back on the falsy value 0), and the
total score is not 675. -/
theorem claim_C1_counterexample :
    (calculatePlateScore ("06AA01".toList)).breakdown.digitsum ≠
      ((digitSumClaimed ((parseTurkishPlate ("06AA01".toList)).digits) : ℕ) : ℚ) ∧
    (calculatePlateScore ("06AA01".toList)).totalScore ≠ 675 := by
  have hp : parseTurkishPlate ("06AA01".toList) =
      ⟨['0', '6'], ['A', 'A'], ['0', '1']⟩ := by decide
  have hc : digitSumClaimed ['0', '1'] = 1 := by decide
  constructor
  · rw [score_06AA01_digitsum, hp]
    norm_num [hc]
  · rw [score_06AA01_total]
    norm_num

/-- Claim C1 (amended): the digitsum sums, over the digit block, `max 1` of
each digit's value — the digit 0, like an unparsable character, contributes 1
— and `score("06AA01")` therefore returns digitsum 0→1 plus 1→1 = 2 and
totalScore (2+2)×10×1.5×15 = 900. -/
theorem claim_C1_amended :
    (∀ cs, (calculatePlateScore cs).breakdown.digitsum =
      ((digitSumAmended ((parseTurkishPlate cs).digits) : ℕ) : ℚ)) ∧
    (calculatePlateScore ("06AA01".toList)).breakdown.digitsum = 2 ∧
    (calculatePlateScore ("06AA01".toList)).totalScore = 900 := by
  refine ⟨fun cs => ?_, score_06AA01_digitsum, score_06AA01_total⟩
  rw [breakdown_digitsum_eq, digitSumN_eq_amended]

/-- Claim C4: `detectPlateType` implements exactly the nine-rule priority
match of §4.2, and the ten concrete classifier equalities of §8 hold. -/
theorem claim_C4_classifier :
    (∀ l, detectPlateType l = classifySpec l) ∧
    detectPlateType ("AA".toList) = PlateType.UNIVERSITY ∧
    detectPlateType ("A".toList) = PlateType.POLICE ∧
    detectPlateType ("AAA".toList) = PlateType.POLICE ∧
    detectPlateType ("JAA".toList) = PlateType.GENDARMERIE ∧
    detectPlateType ("SGH".toList) = PlateType.COAST_GUARD ∧
    detectPlateType ("CD".toList) = PlateType.DIPLOMATIC ∧
    detectPlateType ("CC".toList) = PlateType.CONSULATE ∧
    detectPlateType ("MB".toList) = PlateType.FOREIGN ∧
    detectPlateType ("TAB".toList) = PlateType.TAXI ∧
    detectPlateType ("XY".toList) = PlateType.STANDARD :=
  ⟨fun _ => rfl, by decide, by decide, by decide, by decide, by decide, by decide, by decide,
    by decide, by decide, by decide⟩

/-- Claim C2 counterexample: on "6AB12" one digit is consumed, so the claim's
letter block — the leading uppercase run after removing the single consumed
digit — is "AB"; but the parser removes `provinceCode.length` = 2 characters
(the length of the padded code "06"), so the returned letters are "B". -/
theorem claim_C2_counterexample :
    (normalize ("6AB12".toList)).takeWhile isDigitChar = ['6'] ∧
    ((normalize ("6AB12".toList)).drop 1).takeWhile isUpperChar = ['A', 'B'] ∧
    (parseTurkishPlate ("6AB12".toList)).letters = ['B'] ∧
    (parseTurkishPlate ("6AB12".toList)).letters ≠ ['A', 'B'] := by decide

/-- Claim C2 (amended): the province code is the zero-padded leading 1–2
digit run (empty when there are no leading digits), and the letter block is
the leading uppercase run of the remainder obtained by removing
`provinceCode.length` characters of the normalized input — that is 2 whenever
any digit was matched (the padded code's length), not the number of consumed
digits — so parse("6AB12") yields provinceCode "06" and letters "B". -/
theorem claim_C2_amended :
    (∀ cs, (parseTurkishPlate cs).provinceCode =
        (if (normalize cs).takeWhile isDigitChar = [] then []
          else padStart2 (((normalize cs).takeWhile isDigitChar).take 2)) ∧
      (parseTurkishPlate cs).letters =
        ((normalize cs).drop
            (if (normalize cs).takeWhile isDigitChar = [] then 0 else 2)).takeWhile
          isUpperChar) ∧
    parseTurkishPlate ("6AB12".toList) = ⟨['0', '6'], ['B'], ['1', '2']⟩ := by
  refine ⟨fun cs => ?_, by decide⟩
  by_cases h : (normalize cs).takeWhile isDigitChar = []
  · simp [parseTurkishPlate, h]
  · have hpm : ((normalize cs).takeWhile isDigitChar).take 2 ≠ [] := take_two_ne_nil h
    have hlen : (padStart2 (((normalize cs).takeWhile isDigitChar).take 2)).length = 2 :=
      padStart2_length (by rw [List.length_take]; omega)
    simp only [parseTurkishPlate, if_neg hpm, if_neg h, hlen]
    exact ⟨trivial, trivial⟩

/-- Claim C3 counterexample: "6AB12" matches the canonical 1–2-digit shape
after normalization, yet the parsed components concatenate to "06B12" and not
to the normalized input "6AB12". -/
theorem claim_C3_counterexample :
    canonicalShape (normalize ("6AB12".toList)) ∧
    (parseTurkishPlate ("6AB12".toList)).provinceCode ++
        ((parseTurkishPlate ("6AB12".toList)).letters ++
          (parseTurkishPlate ("6AB12".toList)).digits) ≠
      normalize ("6AB12".toList) := by
  constructor
  · exact ⟨['6'], ['A', 'B'], ['1', '2'], by decide⟩
  · decide

/-- Claim C3 (amended): the concatenation provinceCode + letters + digits
reconstructs the normalized input whenever the normalized input has a full
2-digit province code followed by 1–3 uppercase letters and 1–4 digits; with
a 1-digit province code the round trip fails (see the counterexample). -/
theorem claim_C3_amended (cs : List Char) (h : twoDigitShape (normalize cs)) :
    (parseTurkishPlate cs).provinceCode ++
        ((parseTurkishPlate cs).letters ++ (parseTurkishPlate cs).digits) =
      normalize cs := by
  obtain ⟨p, l, d, hn, hp2, hpd, hl1, hl3, hlu, hd1, hd4, hdd⟩ := h
  have hl0 : l ≠ [] := by
    intro hh
    rw [hh] at hl1
    simp at hl1
  have hd0 : d ≠ [] := by
    intro hh
    rw [hh] at hd1
    simp at hd1
  have hparse := parse_of_shape cs p l d hn hp2 hpd hl0 hlu hd0 hdd
  rw [hparse, hn]

/-- Witness for claim C3: the round trip at the canonical plate "34AB123". -/
theorem claim_C3_witness :
    twoDigitShape (normalize ("34AB123".toList)) ∧
    (parseTurkishPlate ("34AB123".toList)).provinceCode ++
        ((parseTurkishPlate ("34AB123".toList)).letters ++
          (parseTurkishPlate ("34AB123".toList)).digits) =
      normalize ("34AB123".toList) := by
  have hs : twoDigitShape (normalize ("34AB123".toList)) :=
    ⟨['3', '4'], ['A', 'B'], ['1', '2', '3'], by decide⟩
  exact ⟨hs, claim_C3_amended ("34AB123".toList) hs⟩

/-- Claim C5: on every input matching `\d{1,2}[A-Z]{1,3}\d{1,4}` the engine —
a total function, with no error channel — returns a strictly positive total
score. -/
theorem claim_C5_valid_positive (cs : List Char) (_h : canonicalShape cs) :
    0 < (calculatePlateScore cs).totalScore :=
  totalScore_pos cs

/-- Witness for claim C5: the shape hypothesis and positivity at "34AB123". -/
theorem claim_C5_witness :
    canonicalShape ("34AB123".toList) ∧
    0 < (calculatePlateScore ("34AB123".toList)).totalScore := by
  have hs : canonicalShape ("34AB123".toList) :=
    ⟨['3', '4'], ['A', 'B'], ['1', '2', '3'], by decide⟩
  exact ⟨hs, claim_C5_valid_positive ("34AB123".toList) hs⟩

/-- Claim C6: for a STANDARD plate whose letters are length ≥ 3 and all
identical, the base letter score (the value before the letter-position
product is added) is 7.5: the second identical-letters re-check overrides the
20 assigned by the first branch. -/
theorem claim_C6_identical_override (cs : List Char)
    (h1 : detectPlateType ((parseTurkishPlate cs).letters) = PlateType.STANDARD)
    (h2 : 3 ≤ (parseTurkishPlate cs).letters.length)
    (h3 : allSameChars ((parseTurkishPlate cs).letters) = true) :
    letterBaseScore (detectPlateType ((parseTurkishPlate cs).letters))
        ((parseTurkishPlate cs).letters) = 7.5 ∧
    (calculatePlateScore cs).breakdown.letters =
      7.5 + ((letterProduct ((parseTurkishPlate cs).letters) : ℕ) : ℚ) := by
  have hne : (parseTurkishPlate cs).letters ≠ [] := by
    intro hh
    rw [hh] at h2
    simp at h2
  have hbase : letterBaseScore (detectPlateType ((parseTurkishPlate cs).letters))
      ((parseTurkishPlate cs).letters) = 7.5 := by
    unfold letterBaseScore
    rw [if_pos ⟨h1, hne⟩, if_pos (by omega : 2 ≤ (parseTurkishPlate cs).letters.length)]
    dsimp only
    rw [if_pos ⟨h2, h3⟩]
  exact ⟨hbase, by rw [breakdown_letters_eq, hbase]⟩

/-- Witness for claim C6: the plate "34BBB1" (STANDARD, three identical
letters) has base letter score 7.5. -/
theorem claim_C6_witness :
    letterBaseScore (detectPlateType ((parseTurkishPlate ("34BBB1".toList)).letters))
        ((parseTurkishPlate ("34BBB1".toList)).letters) = 7.5 ∧
    (calculatePlateScore ("34BBB1".toList)).breakdown.letters =
      7.5 + ((letterProduct ((parseTurkishPlate ("34BBB1".toList)).letters) : ℕ) : ℚ) :=
  claim_C6_identical_override ("34BBB1".toList) (by decide) (by decide) (by decide)

/-- Claim C7: the letter-position product (1-based alphabet positions
multiplied into a running product started at 1) is added to the base letter
score unconditionally, so whenever the plate type is not STANDARD or the
letter block is empty, the final letter score is 1 plus that product. -/
theorem claim_C7_letter_position_product :
    (∀ cs, (calculatePlateScore cs).breakdown.letters =
      letterBaseScore (detectPlateType ((parseTurkishPlate cs).letters))
          ((parseTurkishPlate cs).letters)
        + ((letterProduct ((parseTurkishPlate cs).letters) : ℕ) : ℚ)) ∧
    (∀ cs, (detectPlateType ((parseTurkishPlate cs).letters) ≠ PlateType.STANDARD ∨
        (parseTurkishPlate cs).letters = []) →
      (calculatePlateScore cs).breakdown.letters =
        1 + ((letterProduct ((parseTurkishPlate cs).letters) : ℕ) : ℚ)) := by
  refine ⟨fun cs => breakdown_letters_eq cs, fun cs h => ?_⟩
  have hnc : ¬(detectPlateType ((parseTurkishPlate cs).letters) = PlateType.STANDARD ∧
      (parseTurkishPlate cs).letters ≠ []) := by
    rcases h with h | h
    · exact fun hc => h hc.1
    · exact fun hc => hc.2 h
  have hbase : letterBaseScore (detectPlateType ((parseTurkishPlate cs).letters))
      ((parseTurkishPlate cs).letters) = 1 := by
    unfold letterBaseScore
    rw [if_neg hnc]
  rw [breakdown_letters_eq, hbase]

/-- Witness for claim C7: the UNIVERSITY plate "06AA01" has letter score
1 + (1×1) = 2. -/
theorem claim_C7_witness :
    (calculatePlateScore ("06AA01".toList)).breakdown.letters =
      1 + ((letterProduct ((parseTurkishPlate ("06AA01".toList)).letters) : ℕ) : ℚ) :=
  claim_C7_letter_position_product.2 ("06AA01".toList) (Or.inl (by decide))

/-- Claim C8: the province score is the `provinceTiers` table value when the
parsed code is a key — every table value lies in {1.5, 2.5, 5, 10} — and the
default 1 otherwise; in particular "99" is absent, so score("99AB1") has
province score 1. -/
theorem claim_C8_province_score :
    (∀ c v, lookupTier provinceTiersList c = some v →
      v = 1.5 ∨ v = 2.5 ∨ v = 5 ∨ v = 10) ∧
    (∀ cs, (calculatePlateScore cs).breakdown.province =
      (match lookupTier provinceTiersList ((parseTurkishPlate cs).provinceCode) with
        | some v => v
        | none => 1)) ∧
    (calculatePlateScore ("99AB1".toList)).breakdown.province = 1 := by
  refine ⟨fun c v h => provinceTiers_values c v h, fun cs => ?_, ?_⟩
  · rw [breakdown_province_eq]
    cases h : lookupTier provinceTiersList ((parseTurkishPlate cs).provinceCode) with
    | none => simp [jsOrRat]
    | some v =>
      have hv0 : v ≠ 0 := by
        rcases provinceTiers_values _ _ h with hv | hv | hv | hv <;> rw [hv] <;> norm_num
      simp [jsOrRat, hv0]
  · have hp : parseTurkishPlate ("99AB1".toList) =
        ⟨['9', '9'], ['A', 'B'], ['1']⟩ := by decide
    have hl : lookupTier provinceTiersList ['9', '9'] = none := rfl
    rw [breakdown_province_eq, hp]
    simp [hl, jsOrRat]

/-- Witness for claim C8: the table lookup at "34" returns 1.5, which lies in
the allowed value set. -/
theorem claim_C8_witness :
    ((1.5 : ℚ) = 1.5 ∨ (1.5 : ℚ) = 2.5 ∨ (1.5 : ℚ) = 5 ∨ (1.5 : ℚ) = 10) ∧
    lookupTier provinceTiersList ['3', '4'] = some 1.5 :=
  ⟨claim_C8_province_score.1 ['3', '4'] 1.5 rfl, rfl⟩

end PlateBot
